import Mathlib

/-!
Verification of the Crystal execution engine (src/crystal.py, class
CrystalInterpreter) against its specification.

Two models are developed.  The first is the method-level embedding: the
statement methods and evaluators exactly as written, driven top-down by
execute_statement over live statement nodes (token text for leaves; the
otherwise and catch marker tokens that the source locates inside the
child list represented by the resulting split into two statement
lists).  This is the semantics the method bodies implement and the spec
describes, and it is what the evaluator-level claims exercise.

The second is the program-level model: CrystalInterpreter subclasses
the lark Transformer, and main() runs scripts through transform, which
walks the parse tree bottom-up, calls the method named after each rule
with the already transformed children, and replaces the node by the
returned value (None for every statement method).  lark filters
anonymous constant tokens (keywords and punctuation) out of the tree
and keeps un-aliased rule wrappers, so nested statements execute once,
unconditionally, during the transform; the enclosing statements then
receive statement wrappers holding None, which execute_statement cannot
dispatch, plus wrapped condition nodes the condition evaluator maps to
false.  The program-level theorems evaluate this model at the claimed
scripts and record where it departs from the method-level intent.

Python numbers are modelled as a tagged union of Int and exact
rationals (float rounding is not modelled; no claim depends on it).
Printing is modelled as an output trace in the state, blocking sleeps
as a trace of durations, and Python exceptions as an explicit error
variant threaded through execution (lark wraps a callback exception in
VisitError, which changes only the message, not the propagation, so the
original exception is kept).  Loops and function calls can diverge, so
execution takes a fuel parameter; running out of fuel is reported by a
distinguished result that no engine construct can catch.
-/

namespace Crystal

/-- The single quote character (Python uses it to delimit VARIABLE tokens). -/
def squote : Char := Char.ofNat 39

/-- The double quote character (delimits STRING tokens). -/
def dquote : Char := Char.ofNat 34

/-- Single quote as a string. -/
def squoteS : String := String.mk [squote]

/-- Double quote as a string. -/
def dquoteS : String := String.mk [dquote]

/-- Builds a VARIABLE token from a name, as the grammar writes it. -/
def vq (name : String) : String := squoteS ++ name ++ squoteS

/-- Builds a STRING token from its text, as the grammar writes it. -/
def sq (text : String) : String := dquoteS ++ text ++ dquoteS

/-- A Python number: int, or float (modelled as an exact rational). -/
inductive Num where
  | i : Int → Num
  | f : Rat → Num
deriving DecidableEq, Repr

/-- Numeric value of a Python number. -/
def Num.toRat : Num → Rat
  | .i n => (n : Rat)
  | .f q => q

/-- A Crystal runtime value: a Python str or a Python number. -/
inductive Value where
  | vstr : String → Value
  | vnum : Num → Value
deriving DecidableEq, Repr

/-- Python str() of a number.  Int rendering matches Python exactly; float
rendering is an approximation (never reached by any claim). -/
def Num.toStr : Num → String
  | .i n => toString n
  | .f q => if q.den = 1 then toString q.num ++ ".0" else toString q.num ++ "." ++ toString q.den

/-- Python str() of a runtime value. -/
def Value.toStr : Value → String
  | .vstr s => s
  | .vnum n => n.toStr

/-- Tests whether a string starts with the given character (the only
prefix shape the source ever tests). -/
def startsWithChar (s : String) (c : Char) : Bool := s.data.head? == some c

/-- Tests whether a string ends with the given character. -/
def endsWithChar (s : String) (c : Char) : Bool := s.data.getLast? == some c

/-- Python membership test of a character in a string. -/
def containsChar (s : String) (c : Char) : Bool := s.data.contains c

/-- Whitespace stripping, as Python int()/float() apply to their string
argument before parsing. -/
def pyTrim (s : String) : String :=
  String.mk (((s.data.dropWhile Char.isWhitespace).reverse.dropWhile Char.isWhitespace).reverse)

/-- Python str.lower(), per character. -/
def pyLower (s : String) : String := String.mk (s.data.map Char.toLower)

/-- Splits a character list at every occurrence of the given character. -/
def splitOnChar (c : Char) : List Char → List (List Char)
  | [] => [[]]
  | x :: xs =>
    let r := splitOnChar c xs
    if x = c then [] :: r
    else
      match r with
      | [] => [[x]]
      | h :: t => (x :: h) :: t

/-- Value of a digit list (helper for the int()/float() embeddings). -/
def digitsToNatL (l : List Char) : Nat :=
  l.foldl (fun acc c => 10 * acc + (c.toNat - 48)) 0

/-- Value of a digit string. -/
def digitsToNat (s : String) : Nat := digitsToNatL s.data

/-- Python int(str): strips whitespace, optional sign, then decimal digits;
anything else raises ValueError (modelled as none).  Digit-group
underscores are not modelled. -/
def parseIntStr (s : String) : Option Int :=
  let t := pyTrim s
  let sign : Int := if startsWithChar t '-' then -1 else 1
  let ds := if startsWithChar t '-' || startsWithChar t '+' then (t.data.drop 1) else t.data
  if ds.length != 0 && ds.all Char.isDigit then
    some (sign * (digitsToNatL ds : Int))
  else none

/-- Python float(str) restricted to the forms reachable from to_number
(the call site guarantees the string contains a dot): strips whitespace,
optional sign, digits, one dot, digits, with at least one digit overall.
Exponent, inf and nan forms are not modelled. -/
def parseFloatStr (s : String) : Option Rat :=
  let t := pyTrim s
  let sign : Rat := if startsWithChar t '-' then -1 else 1
  let ds := if startsWithChar t '-' || startsWithChar t '+' then (t.data.drop 1) else t.data
  match splitOnChar '.' ds with
  | [ip, fp] =>
    if (ip.length + fp.length != 0) && ip.all Char.isDigit && fp.all Char.isDigit then
      some (sign * ((digitsToNatL ip : Rat) + (digitsToNatL fp : Rat) / ((10 : Rat) ^ fp.length)))
    else none
  | _ => none

/-- CrystalInterpreter.to_number (crystal.py lines 259-274).  A number is
returned as is; otherwise the stringified value is parsed as a float when
it contains a dot, as an int otherwise; a parse failure prints an error
and yields integer zero.  The second component is the list of printed
error lines; the function is total, mirroring the fact that the source
catches its own ValueError and never raises. -/
def to_number : Value → Num × List String
  | .vnum n => (n, [])
  | .vstr s =>
    if containsChar s '.' then
      match parseFloatStr s with
      | some q => (.f q, [])
      | none => (.i 0, ["[ERROR] Cannot convert " ++ squoteS ++ s ++ squoteS ++ " to number"])
    else
      match parseIntStr s with
      | some n => (.i n, [])
      | none => (.i 0, ["[ERROR] Cannot convert " ++ squoteS ++ s ++ squoteS ++ " to number"])

/-- Python exceptions that the engine can raise. -/
inductive Err where
  | exc : String → Err
  | zeroDivisionError : String → Err
  | valueError : String → Err
  | indexError : String → Err
deriving DecidableEq, Repr

/-- Python str() of an exception (its message). -/
def Err.message : Err → String
  | .exc m => m
  | .zeroDivisionError m => m
  | .valueError m => m
  | .indexError m => m

/-- Python + on numbers: int with int stays int, otherwise float. -/
def Num.add : Num → Num → Num
  | .i a, .i b => .i (a + b)
  | a, b => .f (a.toRat + b.toRat)

/-- Python - on numbers. -/
def Num.sub : Num → Num → Num
  | .i a, .i b => .i (a - b)
  | a, b => .f (a.toRat - b.toRat)

/-- Python * on numbers. -/
def Num.mul : Num → Num → Num
  | .i a, .i b => .i (a * b)
  | a, b => .f (a.toRat * b.toRat)

/-- Python % on numbers: floored modulo; a zero divisor raises
ZeroDivisionError. -/
def Num.pymod : Num → Num → Except Err Num
  | .i a, .i b =>
    if b = 0 then .error (.zeroDivisionError "integer division or modulo by zero")
    else .ok (.i (Int.fmod a b))
  | a, b =>
    if b.toRat = 0 then .error (.zeroDivisionError "float modulo")
    else .ok (.f (a.toRat - b.toRat * (Rat.floor (a.toRat / b.toRat) : Rat)))

/-- Python int() applied to a runtime value (used by the repeat-count and
wait statements): numbers truncate toward zero, strings are parsed,
failures raise ValueError. -/
def pyInt : Value → Except Err Int
  | .vnum (.i n) => .ok n
  | .vnum (.f q) => .ok (q.num / (q.den : Int))
  | .vstr s =>
    match parseIntStr s with
    | some n => .ok n
    | none =>
      .error (.valueError ("invalid literal for int() with base 10: " ++ squoteS ++ s ++ squoteS))

/-- Python str.strip with a single-character argument: removes every
leading and trailing occurrence of that character. -/
def pyStrip (c : Char) (s : String) : String :=
  String.mk (((s.data.dropWhile (fun x => x = c)).reverse.dropWhile (fun x => x = c)).reverse)

/-- Python dict assignment d[k] = v on an insertion-ordered dict:
overwrites in place, or appends a new binding. -/
def dictSet {α : Type} (m : List (String × α)) (k : String) (v : α) : List (String × α) :=
  if (m.lookup k).isSome then
    m.map (fun p => if p.1 = k then (k, v) else p)
  else m ++ [(k, v)]

/-- Python dict merge for two dicts, second taking precedence on
collisions, preserving insertion order of the merge. -/
def dictMerge (g l : List (String × Value)) : List (String × Value) :=
  g.map (fun p =>
    match l.lookup p.1 with
    | some v => (p.1, v)
    | none => p)
    ++ l.filter (fun p => (g.lookup p.1).isNone)

/-- Expression nodes, the unwrapped binary tree the evaluator consumes
(the pass-through expression/term/factor wrapper nodes of the grammar are
unwrapped transparently by the source and elided here).  A leaf carries
the token text of a value node. -/
inductive Expr where
  | add : Expr → Expr → Expr
  | subtract : Expr → Expr → Expr
  | multiply : Expr → Expr → Expr
  | divide : Expr → Expr → Expr
  | modulo : Expr → Expr → Expr
  | leaf : String → Expr

/-- Condition nodes: existence check or comparison.  The comparison
operator is carried as its token text, as the source compares it against
operator spellings by string. -/
inductive Cond where
  | file_exists : String → Cond
  | comparison : Expr → String → Expr → Cond

/-- The repeat statement variants. -/
inductive RepeatKind where
  | count : String → RepeatKind
  | infinite : RepeatKind
  | whileK : Cond → RepeatKind
  | untilK : Cond → RepeatKind
  | foreach : String → String → RepeatKind

/-- Scope selector of a set statement. -/
inductive Scope where
  | loc : Scope
  | glob : Scope

/-- Statement nodes for the engine constructs the claims exercise.  ifS
carries the statements before and after the otherwise marker; tryS those
before and after the catch marker (the source scans the child list for
those marker tokens and splits there). -/
inductive Stmt where
  | say : String → Stmt
  | set : Scope → String → Expr → Stmt
  | ifS : Cond → List Stmt → List Stmt → Stmt
  | repeatS : RepeatKind → List Stmt → Stmt
  | function_def : String → List Stmt → Stmt
  | function_call : String → Stmt
  | tryS : List Stmt → List Stmt → Stmt
  | errorS : String → Stmt

/-- The interpreter state: the three dictionaries of the Execution
Context plus the trace of printed lines. -/
structure InterpState where
  local_vars : List (String × Value)
  global_vars : List (String × Value)
  functions : List (String × List Stmt)
  output : List String

/-- The empty starting state. -/
def emptyState : InterpState :=
  { local_vars := [], global_vars := [], functions := [], output := [] }

/-- Appends printed lines to the trace. -/
def InterpState.log (st : InterpState) (ls : List String) : InterpState :=
  { st with output := st.output ++ ls }

/-- The filesystem view supplied by the Action Gateway: which paths exist,
and directory listings. -/
structure Env where
  existing : List String
  dirs : List (String × List String)

/-- An environment with no paths. -/
def emptyEnv : Env := { existing := [], dirs := [] }

/-- CrystalInterpreter.resolve_value (lines 1160-1195): a quote-wrapped
token is a variable reference resolved against local then global scope,
an unbound name yielding the literal undefined marker; a double-quoted
token is a string literal with every quoted occurrence of a bound
variable name replaced by the string form of its value (global and local
scopes merged, local winning); any other token is returned verbatim. -/
def resolve_value (st : InterpState) (tok : String) : Value :=
  if startsWithChar tok squote && endsWithChar tok squote then
    let var_name := pyStrip squote tok
    match st.local_vars.lookup var_name with
    | some v => v
    | none =>
      match st.global_vars.lookup var_name with
      | some v => v
      | none => .vstr ("[UNDEFINED: " ++ var_name ++ "]")
  else if startsWithChar tok dquote && endsWithChar tok dquote then
    let text := pyStrip dquote tok
    .vstr ((dictMerge st.global_vars st.local_vars).foldl
      (fun t p => t.replace (squoteS ++ p.1 ++ squoteS) p.2.toStr) text)
  else .vstr tok

/-- CrystalInterpreter.evaluate_expression (lines 220-257).  Binary nodes
evaluate left then right, coerce both with to_number and combine; divide
computes the divisor coercion first and a zero divisor prints an error
and yields integer zero, a nonzero divisor giving Python true division
(a float); modulo has no such guard, so Python % raises
ZeroDivisionError on a zero divisor, which propagates.  Leaves delegate
to resolve_value.  The second component is the list of printed lines. -/
def evaluate_expression (st : InterpState) : Expr → Except Err Value × List String
  | .add l r =>
    match evaluate_expression st l with
    | (.error e, lg) => (.error e, lg)
    | (.ok lv, lg1) =>
      match evaluate_expression st r with
      | (.error e, lg2) => (.error e, lg1 ++ lg2)
      | (.ok rv, lg2) =>
        let (ln, lg3) := to_number lv
        let (rn, lg4) := to_number rv
        (.ok (.vnum (Num.add ln rn)), lg1 ++ lg2 ++ lg3 ++ lg4)
  | .subtract l r =>
    match evaluate_expression st l with
    | (.error e, lg) => (.error e, lg)
    | (.ok lv, lg1) =>
      match evaluate_expression st r with
      | (.error e, lg2) => (.error e, lg1 ++ lg2)
      | (.ok rv, lg2) =>
        let (ln, lg3) := to_number lv
        let (rn, lg4) := to_number rv
        (.ok (.vnum (Num.sub ln rn)), lg1 ++ lg2 ++ lg3 ++ lg4)
  | .multiply l r =>
    match evaluate_expression st l with
    | (.error e, lg) => (.error e, lg)
    | (.ok lv, lg1) =>
      match evaluate_expression st r with
      | (.error e, lg2) => (.error e, lg1 ++ lg2)
      | (.ok rv, lg2) =>
        let (ln, lg3) := to_number lv
        let (rn, lg4) := to_number rv
        (.ok (.vnum (Num.mul ln rn)), lg1 ++ lg2 ++ lg3 ++ lg4)
  | .divide l r =>
    match evaluate_expression st l with
    | (.error e, lg) => (.error e, lg)
    | (.ok lv, lg1) =>
      match evaluate_expression st r with
      | (.error e, lg2) => (.error e, lg1 ++ lg2)
      | (.ok rv, lg2) =>
        let (rn, lg3) := to_number rv
        if rn.toRat = 0 then
          (.ok (.vnum (.i 0)), lg1 ++ lg2 ++ lg3 ++ ["[ERROR] Division by zero"])
        else
          let (ln, lg4) := to_number lv
          (.ok (.vnum (.f (ln.toRat / rn.toRat))), lg1 ++ lg2 ++ lg3 ++ lg4)
  | .modulo l r =>
    match evaluate_expression st l with
    | (.error e, lg) => (.error e, lg)
    | (.ok lv, lg1) =>
      match evaluate_expression st r with
      | (.error e, lg2) => (.error e, lg1 ++ lg2)
      | (.ok rv, lg2) =>
        let (ln, lg3) := to_number lv
        let (rn, lg4) := to_number rv
        match Num.pymod ln rn with
        | .ok n => (.ok (.vnum n), lg1 ++ lg2 ++ lg3 ++ lg4)
        | .error e => (.error e, lg1 ++ lg2 ++ lg3 ++ lg4)
  | .leaf tok => (.ok (resolve_value st tok), [])

/-- The numeric comparison dispatch inside evaluate_condition (the
if/elif chain over the operator spellings); an operator outside the
table falls through, which Python reports as None, a falsy value. -/
def numCompare (op : String) (a b : Rat) : Bool :=
  if op = "greater than" || op = ">" then decide (a > b)
  else if op = "less than" || op = "<" then decide (a < b)
  else if op = "equals" || op = "is" || op = "=" then decide (a = b)
  else false

/-- CrystalInterpreter.evaluate_condition (lines 1060-1093).  An
existence check resolves the path and asks the filesystem; a comparison
evaluates both sides, coerces both with to_number and compares
numerically.  The source wraps the coercions and comparison in
try/except with a string-equality fallback, but to_number catches its
own ValueError and never raises, so the except branch is unreachable and
the embedding is the try body alone. -/
def evaluate_condition (env : Env) (st : InterpState) : Cond → Except Err Bool × List String
  | .file_exists tok =>
    (.ok (env.existing.contains (resolve_value st tok).toStr), [])
  | .comparison l op r =>
    match evaluate_expression st l with
    | (.error e, lg) => (.error e, lg)
    | (.ok lv, lg1) =>
      match evaluate_expression st r with
      | (.error e, lg2) => (.error e, lg1 ++ lg2)
      | (.ok rv, lg2) =>
        let (ln, lg3) := to_number lv
        let (rn, lg4) := to_number rv
        (.ok (numCompare op ln.toRat rn.toRat), lg1 ++ lg2 ++ lg3 ++ lg4)

/-- CrystalInterpreter.wait_stmt duration computation (lines 1020-1035):
the sleep length in seconds from the amount and the lowercased unit text
(absent unit defaults to seconds, as does an unrecognized unit). -/
def wait_sleep_time (amount : Int) (unitArg : Option String) : Int :=
  let unit := match unitArg with
    | none => "seconds"
    | some u => pyLower u
  if unit = "second" || unit = "seconds" then amount
  else if unit = "minute" || unit = "minutes" then amount * 60
  else if unit = "hour" || unit = "hours" then amount * 3600
  else amount

/-- Result of executing statements: normal completion, a propagating
Python exception, or fuel exhaustion (an artifact of the embedding that
no engine construct can observe or catch). -/
inductive RunRes where
  | done : RunRes
  | raised : Err → RunRes
  | outOfFuel : RunRes
deriving DecidableEq, Repr

/-- The family of execution functions at one fuel level: single
statement, statement sequence, and the loop drivers of repeat_stmt. -/
structure ExecFns where
  stmt : InterpState → Stmt → InterpState × RunRes
  seq : InterpState → List Stmt → InterpState × RunRes
  whileL : InterpState → Cond → List Stmt → InterpState × RunRes
  untilL : InterpState → Cond → List Stmt → InterpState × RunRes
  nTimes : InterpState → Nat → List Stmt → InterpState × RunRes
  forE : InterpState → String → List String → List Stmt → InterpState × RunRes
  inf : InterpState → List Stmt → InterpState × RunRes

/-- Execution with no fuel left: doing nothing (an empty sequence, a
zero-count loop, an exhausted foreach list) still completes; anything
that would run a statement reports fuel exhaustion. -/
def execBase : ExecFns where
  stmt := fun st _ => (st, .outOfFuel)
  seq := fun st l =>
    match l with
    | [] => (st, .done)
    | _ :: _ => (st, .outOfFuel)
  whileL := fun st _ _ => (st, .outOfFuel)
  untilL := fun st _ _ => (st, .outOfFuel)
  nTimes := fun st n _ =>
    match n with
    | 0 => (st, .done)
    | _ + 1 => (st, .outOfFuel)
  forE := fun st _ items _ =>
    match items with
    | [] => (st, .done)
    | _ :: _ => (st, .outOfFuel)
  inf := fun st _ => (st, .outOfFuel)

/-- One fuel level of execution, given the family at the next lower
level.  stmt is CrystalInterpreter.execute_statement (lines 1095-1157)
dispatching to the statement methods: say_stmt prints the resolved text;
set_stmt evaluates and stores into the chosen scope (the variable token
stripped of quotes); if_stmt (lines 276-299) evaluates its condition
once and runs exactly one branch; repeat_stmt (lines 301-337) dispatches
on the repeat kind, the count variant applying int() to the resolved
count token once before looping; function_def stores the body,
overwriting, and prints a notice without running it; function_call runs
the stored body against the same state, an unknown name being a silent
no-op; try_stmt (lines 703-729) runs the try block and, only when it
raises, prints the caught message and runs the catch block from its
start; error_stmt raises an exception carrying the resolved message.
An exception anywhere abandons the remaining statements of every
enclosing sequence until a try block catches it.
This family is the method-level reading of the engine: the statement
methods driven top-down over live statement nodes, the way
execute_statement is written to drive them.  The shipped main() never
drives them this way: it calls Transformer.transform, which runs the
callbacks bottom-up over already transformed children (see the
transform model further below); the family is retained as the faithful
embedding of the method bodies themselves, which the evaluator-level
claims exercise one statement at a time. -/
def execStep (env : Env) (prev : ExecFns) : ExecFns where
  stmt := fun st s =>
    match s with
    | .say tok =>
      (st.log [(resolve_value st tok).toStr], .done)
    | .set sc varTok e =>
      match evaluate_expression st e with
      | (.error err, lg) => (st.log lg, .raised err)
      | (.ok v, lg) =>
        let st1 := st.log lg
        let nm := pyStrip squote varTok
        match sc with
        | .loc => ({ st1 with local_vars := dictSet st1.local_vars nm v }, .done)
        | .glob => ({ st1 with global_vars := dictSet st1.global_vars nm v }, .done)
    | .ifS c a b =>
      match evaluate_condition env st c with
      | (.error err, lg) => (st.log lg, .raised err)
      | (.ok bv, lg) =>
        if bv then prev.seq (st.log lg) a
        else prev.seq (st.log lg) b
    | .repeatS rk body =>
      match rk with
      | .infinite => prev.inf st body
      | .count tok =>
        match pyInt (resolve_value st tok) with
        | .error err => (st, .raised err)
        | .ok n => prev.nTimes st n.toNat body
      | .whileK c => prev.whileL st c body
      | .untilK c => prev.untilL st c body
      | .foreach varTok pathTok =>
        let path := (resolve_value st pathTok).toStr
        match env.dirs.lookup path with
        | some items => prev.forE st (pyStrip squote varTok) items body
        | none => (st.log ["[ERROR] Not a directory: " ++ path], .done)
    | .function_def nm body =>
      ({ st with functions := dictSet st.functions nm body,
                 output := st.output ++ ["[FUNCTION] Defined: " ++ nm] }, .done)
    | .function_call nm =>
      match st.functions.lookup nm with
      | none => (st, .done)
      | some body => prev.seq st body
    | .tryS tblock cblock =>
      match prev.seq st tblock with
      | (st1, .raised e) =>
        prev.seq (st1.log ["[ERROR CAUGHT] " ++ e.message]) cblock
      | other => other
    | .errorS tok =>
      (st, .raised (.exc (resolve_value st tok).toStr))
  seq := fun st l =>
    match l with
    | [] => (st, .done)
    | s :: rest =>
      match prev.stmt st s with
      | (st1, .done) => prev.seq st1 rest
      | other => other
  whileL := fun st c body =>
    match evaluate_condition env st c with
    | (.error e, lg) => (st.log lg, .raised e)
    | (.ok bv, lg) =>
      if bv then
        match prev.seq (st.log lg) body with
        | (st1, .done) => prev.whileL st1 c body
        | other => other
      else (st.log lg, .done)
  untilL := fun st c body =>
    match evaluate_condition env st c with
    | (.error e, lg) => (st.log lg, .raised e)
    | (.ok bv, lg) =>
      if bv then (st.log lg, .done)
      else
        match prev.seq (st.log lg) body with
        | (st1, .done) => prev.untilL st1 c body
        | other => other
  nTimes := fun st n body =>
    match n with
    | 0 => (st, .done)
    | n + 1 =>
      match prev.seq st body with
      | (st1, .done) => prev.nTimes st1 n body
      | other => other
  forE := fun st varName items body =>
    match items with
    | [] => (st, .done)
    | it :: rest =>
      let st1 := { st with local_vars := dictSet st.local_vars varName (Value.vstr it) }
      match prev.seq st1 body with
      | (st2, .done) => prev.forE st2 varName rest body
      | other => other
  inf := fun st body =>
    match prev.seq st body with
    | (st1, .done) => prev.inf st1 body
    | other => other

/-- The execution family at a given fuel level. -/
def execAt (env : Env) : Nat → ExecFns
  | 0 => execBase
  | fuel + 1 => execStep env (execAt env fuel)

/-- Executes one statement with the given fuel. -/
def execStmt (env : Env) (fuel : Nat) (st : InterpState) (s : Stmt) : InterpState × RunRes :=
  (execAt env fuel).stmt st s

/-- Executes a statement sequence with the given fuel. -/
def execStmts (env : Env) (fuel : Nat) (st : InterpState) (l : List Stmt) : InterpState × RunRes :=
  (execAt env fuel).seq st l

/-- The repeat-while loop driver. -/
def execWhile (env : Env) (fuel : Nat) (st : InterpState) (c : Cond) (body : List Stmt) :
    InterpState × RunRes :=
  (execAt env fuel).whileL st c body

/-- The repeat-until loop driver. -/
def execUntil (env : Env) (fuel : Nat) (st : InterpState) (c : Cond) (body : List Stmt) :
    InterpState × RunRes :=
  (execAt env fuel).untilL st c body

/-- The repeat-count loop driver. -/
def execNTimes (env : Env) (fuel : Nat) (st : InterpState) (n : Nat) (body : List Stmt) :
    InterpState × RunRes :=
  (execAt env fuel).nTimes st n body

/-- A lark parse-tree node as the parser hands it to the Transformer:
rule nodes with ordered children, and tokens carrying their matched
text.  Anonymous constant tokens (keywords such as local, global,
otherwise, catch, and the unit words of time_unit) are filtered out by
lark before the tree reaches the Transformer and are therefore absent;
named terminals (STRING, NUMBER, VARIABLE, NAME, NEWLINE, COMP_OP,
PATH) are kept, as are the nodes of every rule without an alias
(statement, condition, comparison, expression, term, factor, value,
repeat_count and the other repeat aliases, time_unit, file_path). -/
inductive PTree where
  | tree : String → List PTree → PTree
  | token : String → String → PTree

/-- A node after transformation: the None a statement callback returns,
a token passed through unchanged, or a kept rule node over transformed
children. -/
inductive TNode where
  | pynone : TNode
  | token : String → String → TNode
  | tree : String → List TNode → TNode

/-- Comma-separated rendering of a string list (Python list repr body). -/
def joinComma : List String → String
  | [] => ""
  | [s] => s
  | s :: rest => s ++ ", " ++ joinComma rest

/-- Python repr of a transformed node, as lark defines it: Tree(data,
children) and Token(type, value), with None rendered as None.  The
depth argument only serves termination; every tree this development
stringifies is far shallower than the bound used. -/
def TNode.pyReprD : Nat → TNode → String
  | _, .pynone => "None"
  | _, .token ty tx =>
    "Token(" ++ squoteS ++ ty ++ squoteS ++ ", " ++ squoteS ++ tx ++ squoteS ++ ")"
  | 0, .tree _ _ => ""
  | d + 1, .tree dat cs =>
    "Tree(" ++ squoteS ++ dat ++ squoteS ++ ", [" ++ joinComma (cs.map (TNode.pyReprD d)) ++ "])"

/-- Python str() of a transformed node: a lark Token subclasses str and
stringifies to its text; a Tree defines no dunder str, so str() falls
back to the repr. -/
def TNode.pyStr : TNode → String
  | .token _ tx => tx
  | v => TNode.pyReprD 16 v

/-- Interpreter state as the transform mutates it: the scopes and output
as before, the function table holding transformed child lists, and the
trace of blocking sleep durations requested by wait statements. -/
structure TState where
  local_vars : List (String × Value)
  global_vars : List (String × Value)
  tfunctions : List (String × List TNode)
  output : List String
  sleeps : List Int

/-- The empty transform-time state. -/
def emptyTState : TState :=
  { local_vars := [], global_vars := [], tfunctions := [], output := [], sleeps := [] }

/-- Appends printed lines to the transform-time trace. -/
def TState.log (st : TState) (ls : List String) : TState :=
  { st with output := st.output ++ ls }

/-- The variable scopes of a transform-time state, in the shape the
value resolver reads (it touches neither the function table nor the
output). -/
def TState.scopes (st : TState) : InterpState :=
  { local_vars := st.local_vars, global_vars := st.global_vars,
    functions := [], output := [] }

/-- CrystalInterpreter.resolve_value (lines 1160-1195) applied to a live
node: one unwrap of a value wrapper, one unwrap of a node whose data
field is path (no rule is named path, so this test never fires), then
the token text, or the str() of whatever node is left, feeds the
string-level resolver. -/
def resolveNode (st : TState) (v : TNode) : Value :=
  let v1 := match v with
    | TNode.tree "value" (c :: _) => c
    | _ => v
  let v2 := match v1 with
    | TNode.tree "path" (c :: _) => c
    | _ => v1
  resolve_value st.scopes (TNode.pyStr v2)

/-- CrystalInterpreter.evaluate_expression applied to a live node.  The
transform leaves expression trees intact (no callback exists for the
arithmetic rules), so the structure mirrors the token-level evaluator;
a malformed binary node raises IndexError as the children[] access
would.  In the transformed program nothing ever reaches this function:
set_stmt raises IndexError on its filtered child list before
evaluating, and conditions arrive wrapped in a condition node that the
condition evaluator maps to false before looking at expressions. -/
def evalExprT (st : TState) : TNode → Except Err Value × List String
  | TNode.tree "add" (l :: r :: _) =>
    match evalExprT st l with
    | (.error e, lg) => (.error e, lg)
    | (.ok lv, lg1) =>
      match evalExprT st r with
      | (.error e, lg2) => (.error e, lg1 ++ lg2)
      | (.ok rv, lg2) =>
        let (ln, lg3) := to_number lv
        let (rn, lg4) := to_number rv
        (.ok (.vnum (Num.add ln rn)), lg1 ++ lg2 ++ lg3 ++ lg4)
  | TNode.tree "subtract" (l :: r :: _) =>
    match evalExprT st l with
    | (.error e, lg) => (.error e, lg)
    | (.ok lv, lg1) =>
      match evalExprT st r with
      | (.error e, lg2) => (.error e, lg1 ++ lg2)
      | (.ok rv, lg2) =>
        let (ln, lg3) := to_number lv
        let (rn, lg4) := to_number rv
        (.ok (.vnum (Num.sub ln rn)), lg1 ++ lg2 ++ lg3 ++ lg4)
  | TNode.tree "multiply" (l :: r :: _) =>
    match evalExprT st l with
    | (.error e, lg) => (.error e, lg)
    | (.ok lv, lg1) =>
      match evalExprT st r with
      | (.error e, lg2) => (.error e, lg1 ++ lg2)
      | (.ok rv, lg2) =>
        let (ln, lg3) := to_number lv
        let (rn, lg4) := to_number rv
        (.ok (.vnum (Num.mul ln rn)), lg1 ++ lg2 ++ lg3 ++ lg4)
  | TNode.tree "divide" (l :: r :: _) =>
    match evalExprT st l with
    | (.error e, lg) => (.error e, lg)
    | (.ok lv, lg1) =>
      match evalExprT st r with
      | (.error e, lg2) => (.error e, lg1 ++ lg2)
      | (.ok rv, lg2) =>
        let (rn, lg3) := to_number rv
        if rn.toRat = 0 then
          (.ok (.vnum (.i 0)), lg1 ++ lg2 ++ lg3 ++ ["[ERROR] Division by zero"])
        else
          let (ln, lg4) := to_number lv
          (.ok (.vnum (.f (ln.toRat / rn.toRat))), lg1 ++ lg2 ++ lg3 ++ lg4)
  | TNode.tree "modulo" (l :: r :: _) =>
    match evalExprT st l with
    | (.error e, lg) => (.error e, lg)
    | (.ok lv, lg1) =>
      match evalExprT st r with
      | (.error e, lg2) => (.error e, lg1 ++ lg2)
      | (.ok rv, lg2) =>
        let (ln, lg3) := to_number lv
        let (rn, lg4) := to_number rv
        match Num.pymod ln rn with
        | .ok n => (.ok (.vnum n), lg1 ++ lg2 ++ lg3 ++ lg4)
        | .error e => (.error e, lg1 ++ lg2 ++ lg3 ++ lg4)
  | TNode.tree "expression" (c :: _) => evalExprT st c
  | TNode.tree "term" (c :: _) => evalExprT st c
  | TNode.tree "factor" (c :: _) => evalExprT st c
  | TNode.tree d cs =>
    if d = "add" || d = "subtract" || d = "multiply" || d = "divide" || d = "modulo"
        || d = "expression" || d = "term" || d = "factor" then
      (.error (Err.indexError "list index out of range"), [])
    else
      (.ok (resolveNode st (TNode.tree d cs)), [])
  | v => (.ok (resolveNode st v), [])

/-- CrystalInterpreter.evaluate_condition on a live node: the data field
is matched against file_exists and comparison exactly as in the
token-level embedding; any other node, in particular the un-inlined
condition wrapper the grammar always produces, falls through and the
method returns a falsy value, modelled as false. -/
def evalCondT (env : Env) (st : TState) (v : TNode) : Except Err Bool × List String :=
  match v with
  | TNode.tree "file_exists" (c :: _) =>
    (.ok (env.existing.contains (resolveNode st c).toStr), [])
  | TNode.tree "comparison" (l :: op :: r :: _) =>
    match evalExprT st l with
    | (.error e, lg) => (.error e, lg)
    | (.ok lv, lg1) =>
      match evalExprT st r with
      | (.error e, lg2) => (.error e, lg1 ++ lg2)
      | (.ok rv, lg2) =>
        let (ln, lg3) := to_number lv
        let (rn, lg4) := to_number rv
        (.ok (numCompare (TNode.pyStr op) ln.toRat rn.toRat), lg1 ++ lg2 ++ lg3 ++ lg4)
  | TNode.tree "file_exists" _ => (.error (Err.indexError "list index out of range"), [])
  | TNode.tree "comparison" _ => (.error (Err.indexError "list index out of range"), [])
  | _ => (.ok false, [])

/-- Finds the first token with the given text and splits the child list
there, as the otherwise scan of if_stmt and the catch scan of try_stmt
do; on transformed children the scans never find their marker, because
lark filtered those anonymous keywords out of the tree. -/
def splitAtMarker (marker : String) : List TNode → Option (List TNode × List TNode)
  | [] => none
  | x :: xs =>
    match x with
    | TNode.token _ tx =>
      if tx = marker then some ([], xs)
      else (splitAtMarker marker xs).map (fun p => (x :: p.1, p.2))
    | _ => (splitAtMarker marker xs).map (fun p => (x :: p.1, p.2))

/-- The rule names for which CrystalInterpreter defines a method: the
Transformer replaces exactly these nodes by their callback results
during the bottom-up transform. -/
def callbackNames : List String :=
  ["say_stmt", "ask_stmt", "set_stmt", "if_stmt", "repeat_stmt", "copy_stmt", "move_stmt",
   "delete_stmt", "list_stmt", "create_stmt", "make_file", "make_folders", "include_stmt",
   "function_def", "function_call", "pause_stmt", "try_stmt", "ping_stmt", "download_stmt",
   "list_path", "add_path", "remove_path", "cd_stmt", "pwd_stmt", "ls_stmt", "zip_stmt",
   "unzip_stmt", "wait_stmt", "error_stmt", "start"]

/-- The data fields execute_statement (lines 1095-1157) dispatches on:
every statement method name except start. -/
def stmtDispatchNames : List String := callbackNames.erase "start"

/-- Results of transform-time execution. -/
inductive TRes (α : Type) where
  | ok : α → TRes α
  | raised : Err → TRes α
  | fuelOut : TRes α

/-- Forgets the None a completed statement method returns. -/
def toNodeRes : TState × TRes Unit → TState × TRes TNode
  | (st, .ok _) => (st, .ok TNode.pynone)
  | (st, .raised e) => (st, .raised e)
  | (st, .fuelOut) => (st, .fuelOut)

/-- The family of transform-time functions at one fuel level: the
bottom-up transform of a node and of a child list, execute_statement on
a transformed node and on a list, the method dispatch by rule name, and
the loop drivers of repeat_stmt. -/
structure TransFns where
  transform1 : TState → PTree → TState × TRes TNode
  transformL : TState → List PTree → TState × TRes (List TNode)
  exec1 : TState → TNode → TState × TRes Unit
  execL : TState → List TNode → TState × TRes Unit
  callM : TState → String → List TNode → TState × TRes TNode
  nTimesT : TState → Nat → List TNode → TState × TRes Unit
  whileT : TState → TNode → List TNode → TState × TRes Unit
  untilT : TState → TNode → List TNode → TState × TRes Unit
  infT : TState → List TNode → TState × TRes Unit
  forT : TState → String → List String → List TNode → TState × TRes Unit

/-- Transform-time execution with no fuel left: only the trivially empty
cases complete. -/
def transBase : TransFns where
  transform1 := fun st _ => (st, .fuelOut)
  transformL := fun st l =>
    match l with
    | [] => (st, .ok [])
    | _ :: _ => (st, .fuelOut)
  exec1 := fun st _ => (st, .fuelOut)
  execL := fun st l =>
    match l with
    | [] => (st, .ok ())
    | _ :: _ => (st, .fuelOut)
  callM := fun st _ _ => (st, .fuelOut)
  nTimesT := fun st n _ =>
    match n with
    | 0 => (st, .ok ())
    | _ + 1 => (st, .fuelOut)
  whileT := fun st _ _ => (st, .fuelOut)
  untilT := fun st _ _ => (st, .fuelOut)
  infT := fun st _ => (st, .fuelOut)
  forT := fun st _ items _ =>
    match items with
    | [] => (st, .ok ())
    | _ :: _ => (st, .fuelOut)

/-- One fuel level of the transform-time family, given the next lower
level.
transform1 and transformL are lark Transformer.transform: children are
transformed left to right (so nested statement methods run first, and an
exception from any of them aborts the whole transform before the parent
callback runs); a node whose rule name has a method is replaced by the
method result, any other node is kept over its transformed children.
callM is the method table: say_stmt prints the resolved first child;
set_stmt unpacks args[0], args[1], args[2] as scope, name and
expression, raising IndexError when the child list is shorter (as it
always is in the transformed program, the scope keyword having been
filtered); if_stmt scans for the otherwise marker, evaluates the
condition node and runs the chosen side through execute_statement;
repeat_stmt dispatches on the repeat alias, the count variant applying
int() to the resolved first grandchild; function_def stores the
transformed body and prints a notice; function_call looks the name up
and runs the stored body; try_stmt scans for the catch marker and runs
the try side, catching a raise into the catch side; wait_stmt computes
the duration from the resolved amount and the str() of the unit node
when present, records the sleep and prints the waiting messages;
error_stmt raises the resolved message; start runs the transformed
top-level children through execute_statement; the remaining statement
methods perform Action Gateway side effects outside every claim and are
modelled as completing silently.
exec1 is execute_statement on a transformed node: the data field is
compared against the statement method names and the matching method
would be dispatched; in a transformed tree those rule nodes no longer
exist (their callbacks already replaced them with None), so on every
node the program produces no branch matches and the dispatcher does
nothing. -/
def transStep (env : Env) (prev : TransFns) : TransFns where
  transform1 := fun st p =>
    match p with
    | PTree.token ty tx => (st, .ok (TNode.token ty tx))
    | PTree.tree d cs =>
      match prev.transformL st cs with
      | (st1, .ok tcs) =>
        if callbackNames.contains d then prev.callM st1 d tcs
        else (st1, .ok (TNode.tree d tcs))
      | (st1, .raised e) => (st1, .raised e)
      | (st1, .fuelOut) => (st1, .fuelOut)
  transformL := fun st l =>
    match l with
    | [] => (st, .ok [])
    | p :: rest =>
      match prev.transform1 st p with
      | (st1, .ok t) =>
        match prev.transformL st1 rest with
        | (st2, .ok ts) => (st2, .ok (t :: ts))
        | (st2, .raised e) => (st2, .raised e)
        | (st2, .fuelOut) => (st2, .fuelOut)
      | (st1, .raised e) => (st1, .raised e)
      | (st1, .fuelOut) => (st1, .fuelOut)
  exec1 := fun st v =>
    match v with
    | TNode.tree d cs =>
      if stmtDispatchNames.contains d then
        match prev.callM st d cs with
        | (st1, .ok _) => (st1, .ok ())
        | (st1, .raised e) => (st1, .raised e)
        | (st1, .fuelOut) => (st1, .fuelOut)
      else (st, .ok ())
    | _ => (st, .ok ())
  execL := fun st l =>
    match l with
    | [] => (st, .ok ())
    | v :: rest =>
      match prev.exec1 st v with
      | (st1, .ok _) => prev.execL st1 rest
      | (st1, .raised e) => (st1, .raised e)
      | (st1, .fuelOut) => (st1, .fuelOut)
  callM := fun st d args =>
    if d = "say_stmt" then
      match args with
      | t :: _ => (st.log [(resolveNode st t).toStr], .ok TNode.pynone)
      | [] => (st, .raised (Err.indexError "list index out of range"))
    else if d = "set_stmt" then
      match args with
      | scope :: varName :: expr :: _ =>
        let var := pyStrip squote (TNode.pyStr varName)
        match evalExprT st expr with
        | (.error e, lg) => (st.log lg, .raised e)
        | (.ok v, lg) =>
          let st1 := st.log lg
          if TNode.pyStr scope = "local" then
            ({ st1 with local_vars := dictSet st1.local_vars var v }, .ok TNode.pynone)
          else
            ({ st1 with global_vars := dictSet st1.global_vars var v }, .ok TNode.pynone)
      | _ => (st, .raised (Err.indexError "list index out of range"))
    else if d = "if_stmt" then
      match args with
      | [] => (st, .raised (Err.indexError "list index out of range"))
      | condition :: rest =>
        let (ifS, elseS) := match splitAtMarker "otherwise" rest with
          | some (a, b) => (a, b)
          | none => (rest, [])
        match evalCondT env st condition with
        | (.error e, lg) => (st.log lg, .raised e)
        | (.ok b, lg) =>
          if b then toNodeRes (prev.execL (st.log lg) ifS)
          else toNodeRes (prev.execL (st.log lg) elseS)
    else if d = "repeat_stmt" then
      match args with
      | [] => (st, .raised (Err.indexError "list index out of range"))
      | rt :: statements =>
        match rt with
        | TNode.tree "repeat_infinite" _ => toNodeRes (prev.infT st statements)
        | TNode.tree "repeat_count" (c0 :: _) =>
          match pyInt (resolveNode st c0) with
          | .error e => (st, .raised e)
          | .ok n => toNodeRes (prev.nTimesT st n.toNat statements)
        | TNode.tree "repeat_count" [] =>
          (st, .raised (Err.indexError "list index out of range"))
        | TNode.tree "repeat_while" (c :: _) => toNodeRes (prev.whileT st c statements)
        | TNode.tree "repeat_while" [] =>
          (st, .raised (Err.indexError "list index out of range"))
        | TNode.tree "repeat_until" (c :: _) => toNodeRes (prev.untilT st c statements)
        | TNode.tree "repeat_until" [] =>
          (st, .raised (Err.indexError "list index out of range"))
        | TNode.tree "repeat_foreach" (varTok :: pathTok :: _) =>
          let path := (resolveNode st pathTok).toStr
          match env.dirs.lookup path with
          | some items =>
            toNodeRes (prev.forT st (pyStrip squote (TNode.pyStr varTok)) items statements)
          | none => (st.log ["[ERROR] Not a directory: " ++ path], .ok TNode.pynone)
        | TNode.tree "repeat_foreach" _ =>
          (st, .raised (Err.indexError "list index out of range"))
        | _ => (st, .ok TNode.pynone)
    else if d = "function_def" then
      match args with
      | nm :: body =>
        ({ st with tfunctions := dictSet st.tfunctions (TNode.pyStr nm) body,
                   output := st.output ++ ["[FUNCTION] Defined: " ++ TNode.pyStr nm] },
         .ok TNode.pynone)
      | [] => (st, .raised (Err.indexError "list index out of range"))
    else if d = "function_call" then
      match args with
      | nm :: _ =>
        if TNode.pyStr nm = "" then (st, .ok TNode.pynone)
        else
          match st.tfunctions.lookup (TNode.pyStr nm) with
          | none => (st, .ok TNode.pynone)
          | some body => toNodeRes (prev.execL st body)
      | [] => (st, .ok TNode.pynone)
    else if d = "try_stmt" then
      let (tryS, catchS) := match splitAtMarker "catch" args with
        | some (a, b) => (a, b)
        | none => (args, [])
      match prev.execL st tryS with
      | (st1, .ok _) => (st1, .ok TNode.pynone)
      | (st1, .raised e) =>
        toNodeRes (prev.execL (st1.log ["[ERROR CAUGHT] " ++ e.message]) catchS)
      | (st1, .fuelOut) => (st1, .fuelOut)
    else if d = "wait_stmt" then
      match args with
      | [] => (st, .raised (Err.indexError "list index out of range"))
      | a0 :: rest =>
        match pyInt (resolveNode st a0) with
        | .error e => (st, .raised e)
        | .ok amount =>
          let unitArg := match rest with
            | [] => none
            | a1 :: _ => some (TNode.pyStr a1)
          let s := wait_sleep_time amount unitArg
          let msg := if s < 60 then "[WAIT] Waiting " ++ toString amount ++ " second(s)..."
            else if s < 3600 then "[WAIT] Waiting " ++ toString amount ++ " minute(s)..."
            else "[WAIT] Waiting " ++ toString amount ++ " hour(s)..."
          let st1 := st.log [msg]
          let st2 := { st1 with sleeps := st1.sleeps ++ [s] }
          (st2.log ["[WAIT] Done!"], .ok TNode.pynone)
    else if d = "error_stmt" then
      match args with
      | t :: _ => (st, .raised (Err.exc (resolveNode st t).toStr))
      | [] => (st, .raised (Err.indexError "list index out of range"))
    else if d = "start" then
      toNodeRes (prev.execL st args)
    else
      (st, .ok TNode.pynone)
  nTimesT := fun st n body =>
    match n with
    | 0 => (st, .ok ())
    | n + 1 =>
      match prev.execL st body with
      | (st1, .ok _) => prev.nTimesT st1 n body
      | (st1, .raised e) => (st1, .raised e)
      | (st1, .fuelOut) => (st1, .fuelOut)
  whileT := fun st c body =>
    match evalCondT env st c with
    | (.error e, lg) => (st.log lg, .raised e)
    | (.ok b, lg) =>
      if b then
        match prev.execL (st.log lg) body with
        | (st1, .ok _) => prev.whileT st1 c body
        | (st1, .raised e) => (st1, .raised e)
        | (st1, .fuelOut) => (st1, .fuelOut)
      else (st.log lg, .ok ())
  untilT := fun st c body =>
    match evalCondT env st c with
    | (.error e, lg) => (st.log lg, .raised e)
    | (.ok b, lg) =>
      if b then (st.log lg, .ok ())
      else
        match prev.execL (st.log lg) body with
        | (st1, .ok _) => prev.untilT st1 c body
        | (st1, .raised e) => (st1, .raised e)
        | (st1, .fuelOut) => (st1, .fuelOut)
  infT := fun st body =>
    match prev.execL st body with
    | (st1, .ok _) => prev.infT st1 body
    | (st1, .raised e) => (st1, .raised e)
    | (st1, .fuelOut) => (st1, .fuelOut)
  forT := fun st varName items body =>
    match items with
    | [] => (st, .ok ())
    | it :: rest =>
      let st1 := { st with local_vars := dictSet st.local_vars varName (Value.vstr it) }
      match prev.execL st1 body with
      | (st2, .ok _) => prev.forT st2 varName rest body
      | (st2, .raised e) => (st2, .raised e)
      | (st2, .fuelOut) => (st2, .fuelOut)

/-- The transform-time family at a given fuel level. -/
def transAt (env : Env) : Nat → TransFns
  | 0 => transBase
  | fuel + 1 => transStep env (transAt env fuel)

/-- Runs Transformer.transform on a parse tree, as main() does for a
script, with the given fuel. -/
def transformTree (env : Env) (fuel : Nat) (st : TState) (p : PTree) : TState × TRes TNode :=
  (transAt env fuel).transform1 st p

/-- Wraps a statement-kind node in the statement rule node, as the
grammar produces for every statement. -/
def pstmt (p : PTree) : PTree := PTree.tree "statement" [p]

/-- A NUMBER token. -/
def pnum (s : String) : PTree := PTree.token "NUMBER" s

/-- A STRING token holding the given text. -/
def pstr (text : String) : PTree := PTree.token "STRING" (sq text)

/-- A VARIABLE token naming the given variable. -/
def pvar (nm : String) : PTree := PTree.token "VARIABLE" (vq nm)

/-- A NEWLINE token. -/
def pnl : PTree := PTree.token "NEWLINE" "\n"

/-- The wrapper chain expression, term, factor, value the grammar builds
around a single value token. -/
def pexprVal (t : PTree) : PTree :=
  PTree.tree "expression" [PTree.tree "term" [PTree.tree "factor" [PTree.tree "value" [t]]]]

/-- A comparison condition node, wrapped in the condition rule node as
the grammar always produces. -/
def pcmp (l : PTree) (op : String) (r : PTree) : PTree :=
  PTree.tree "condition" [PTree.tree "comparison" [l, PTree.token "COMP_OP" op, r]]

/-- The parse tree of the script try / error "x" / say "unreachable" /
catch / say "caught" / end try (the catch keyword filtered, the named
NEWLINE tokens kept). -/
def tryScriptP : PTree :=
  PTree.tree "start" [pstmt (PTree.tree "try_stmt"
    [pnl,
     pstmt (PTree.tree "error_stmt" [pstr "x"]),
     pstmt (PTree.tree "say_stmt" [pstr "unreachable"]),
     pnl,
     pstmt (PTree.tree "say_stmt" [pstr "caught"])])]

/-- The parse tree of the script if 1 equals 2 / say "skipped" /
end if. -/
def ifScriptP : PTree :=
  PTree.tree "start" [pstmt (PTree.tree "if_stmt"
    [pcmp (pexprVal (pnum "1")) "equals" (pexprVal (pnum "2")),
     pnl,
     pstmt (PTree.tree "say_stmt" [pstr "skipped"])])]

/-- The parse tree of the script set local x = 1 (the local keyword
filtered, leaving two children). -/
def setScriptP : PTree :=
  PTree.tree "start" [pstmt (PTree.tree "set_stmt"
    [pvar "x", pexprVal (pnum "1")])]

/-- The parse tree of the script repeat 0 / say "body" / end repeat. -/
def repeatScriptP : PTree :=
  PTree.tree "start" [pstmt (PTree.tree "repeat_stmt"
    [PTree.tree "repeat_count" [pnum "0"],
     pnl,
     pstmt (PTree.tree "say_stmt" [pstr "body"])])]

/-- The parse tree of the script function f / say "hi" / end function
followed by two calls of f. -/
def funScriptP : PTree :=
  PTree.tree "start"
    [pstmt (PTree.tree "function_def"
      [PTree.token "NAME" "f", pnl, pstmt (PTree.tree "say_stmt" [pstr "hi"])]),
     pstmt (PTree.tree "function_call" [PTree.token "NAME" "f"]),
     pstmt (PTree.tree "function_call" [PTree.token "NAME" "f"])]

/-- The parse tree of the script wait 1 minutes (the unit keyword
filtered, leaving an empty time_unit node). -/
def waitScriptP : PTree :=
  PTree.tree "start" [pstmt (PTree.tree "wait_stmt"
    [pnum "1", PTree.tree "time_unit" []])]

/-- A coercion that printed an error produced integer zero (the
substitution branch of to_number). -/
theorem to_number_fail_zero (v : Value) (h : (to_number v).2 ≠ []) :
    (to_number v).1 = Num.i 0 := by
  cases v with
  | vnum n => exact absurd rfl h
  | vstr s =>
    by_cases hc : containsChar s '.' = true
    · cases hp : parseFloatStr s with
      | some q => exact absurd (by simp [to_number, hc, hp]) h
      | none => simp [to_number, hc, hp]
    · cases hp : parseIntStr s with
      | some n => exact absurd (by simp [to_number, hc, hp]) h
      | none => simp [to_number, hc, hp]

/-- C5: a division whose divisor coerces to zero prints an error and
yields integer zero instead of raising, while a nonzero divisor gives
the exact quotient as a float; addition, subtraction and multiplication
combine the coerced operands by the corresponding exact operation (the
value identities for Num.add, Num.sub and Num.mul), and modulo with a
nonzero divisor is floored modulo (Int.fmod on int pairs, the floor
identity on float pairs). -/
theorem C5_division_and_arithmetic :
    (∀ st l r lv rv lg1 lg2,
       evaluate_expression st l = (Except.ok lv, lg1) →
       evaluate_expression st r = (Except.ok rv, lg2) →
       ((to_number rv).1.toRat = 0 →
          evaluate_expression st (Expr.divide l r) =
            (Except.ok (Value.vnum (Num.i 0)),
             lg1 ++ lg2 ++ (to_number rv).2 ++ ["[ERROR] Division by zero"])) ∧
       ((to_number rv).1.toRat ≠ 0 →
          evaluate_expression st (Expr.divide l r) =
            (Except.ok (Value.vnum (Num.f ((to_number lv).1.toRat / (to_number rv).1.toRat))),
             lg1 ++ lg2 ++ (to_number rv).2 ++ (to_number lv).2)) ∧
       evaluate_expression st (Expr.add l r) =
         (Except.ok (Value.vnum (Num.add (to_number lv).1 (to_number rv).1)),
          lg1 ++ lg2 ++ (to_number lv).2 ++ (to_number rv).2) ∧
       evaluate_expression st (Expr.subtract l r) =
         (Except.ok (Value.vnum (Num.sub (to_number lv).1 (to_number rv).1)),
          lg1 ++ lg2 ++ (to_number lv).2 ++ (to_number rv).2) ∧
       evaluate_expression st (Expr.multiply l r) =
         (Except.ok (Value.vnum (Num.mul (to_number lv).1 (to_number rv).1)),
          lg1 ++ lg2 ++ (to_number lv).2 ++ (to_number rv).2)) ∧
    (∀ a b : Num, (Num.add a b).toRat = a.toRat + b.toRat) ∧
    (∀ a b : Num, (Num.sub a b).toRat = a.toRat - b.toRat) ∧
    (∀ a b : Num, (Num.mul a b).toRat = a.toRat * b.toRat) ∧
    (∀ x y : Int, y ≠ 0 →
       Num.pymod (Num.i x) (Num.i y) = Except.ok (Num.i (Int.fmod x y))) ∧
    (∀ a q : Rat, q ≠ 0 →
       Num.pymod (Num.f a) (Num.f q) =
         Except.ok (Num.f (a - q * (Rat.floor (a / q) : Rat)))) := by
  refine ⟨?_, ?_, ?_, ?_, ?_, ?_⟩
  · intro st l r lv rv lg1 lg2 hl hr
    rcases hLv : to_number lv with ⟨ln, lgl⟩
    rcases hRv : to_number rv with ⟨rn, lgr⟩
    refine ⟨?_, ?_, ?_, ?_, ?_⟩
    · intro hz
      replace hz : rn.toRat = 0 := hz
      simp only [evaluate_expression, hl, hr, hLv, hRv]
      simp [hz]
    · intro hz
      replace hz : rn.toRat ≠ 0 := hz
      simp only [evaluate_expression, hl, hr, hLv, hRv]
      simp [hz]
    · simp only [evaluate_expression, hl, hr, hLv, hRv]
    · simp only [evaluate_expression, hl, hr, hLv, hRv]
    · simp only [evaluate_expression, hl, hr, hLv, hRv]
  · intro a b
    cases a <;> cases b <;> simp [Num.add, Num.toRat]
  · intro a b
    cases a <;> cases b <;> simp [Num.sub, Num.toRat]
  · intro a b
    cases a <;> cases b <;> simp [Num.mul, Num.toRat]
  · intro x y hy
    simp [Num.pymod, hy]
  · intro a q hq
    simp [Num.pymod, Num.toRat, hq]

/-- Witness for C5 at concrete inputs: 7 divided by 0 prints the error
and yields zero, 7 divided by 2 gives the exact quotient, and 7 plus 2
adds the coerced operands. -/
theorem C5_division_and_arithmetic_witness :
    evaluate_expression emptyState (Expr.divide (Expr.leaf "7") (Expr.leaf "0")) =
      (Except.ok (Value.vnum (Num.i 0)), ["[ERROR] Division by zero"]) ∧
    evaluate_expression emptyState (Expr.divide (Expr.leaf "7") (Expr.leaf "2")) =
      (Except.ok (Value.vnum (Num.f (Num.toRat (to_number (Value.vstr "7")).1 /
        Num.toRat (to_number (Value.vstr "2")).1))), []) ∧
    evaluate_expression emptyState (Expr.add (Expr.leaf "7") (Expr.leaf "2")) =
      (Except.ok (Value.vnum (Num.i 9)), []) := by
  have h0 := (C5_division_and_arithmetic.1 emptyState (Expr.leaf "7") (Expr.leaf "0")
    (Value.vstr "7") (Value.vstr "0") [] [] rfl rfl).1 (by decide)
  have h2 := (C5_division_and_arithmetic.1 emptyState (Expr.leaf "7") (Expr.leaf "2")
    (Value.vstr "7") (Value.vstr "2") [] [] rfl rfl).2.1 (by decide)
  have h3 := (C5_division_and_arithmetic.1 emptyState (Expr.leaf "7") (Expr.leaf "2")
    (Value.vstr "7") (Value.vstr "2") [] [] rfl rfl).2.2.1
  exact ⟨h0, h2, h3⟩

/-- C6: to_number returns a number unchanged; a string containing a dot
is parsed as a float and one without as an int; either parse failure
prints a conversion error and yields integer zero (and the function is
total, so coercion never raises). -/
theorem C6_to_number :
    (∀ n : Num, to_number (Value.vnum n) = (n, [])) ∧
    (∀ s q, containsChar s '.' = true → parseFloatStr s = some q →
       to_number (Value.vstr s) = (Num.f q, [])) ∧
    (∀ s n, containsChar s '.' = false → parseIntStr s = some n →
       to_number (Value.vstr s) = (Num.i n, [])) ∧
    (∀ s, containsChar s '.' = true → parseFloatStr s = none →
       to_number (Value.vstr s) =
         (Num.i 0, ["[ERROR] Cannot convert " ++ squoteS ++ s ++ squoteS ++ " to number"])) ∧
    (∀ s, containsChar s '.' = false → parseIntStr s = none →
       to_number (Value.vstr s) =
         (Num.i 0, ["[ERROR] Cannot convert " ++ squoteS ++ s ++ squoteS ++ " to number"])) := by
  refine ⟨fun n => rfl, ?_, ?_, ?_, ?_⟩
  · intro s q hc hp
    simp [to_number, hc, hp]
  · intro s n hc hp
    simp [to_number, hc, hp]
  · intro s hc hp
    simp [to_number, hc, hp]
  · intro s hc hp
    simp [to_number, hc, hp]

/-- Witness for C6 at concrete inputs: 3.5 parses as the float 7/2,
42 as the int 42, and abc fails, printing the error and yielding zero. -/
theorem C6_to_number_witness :
    to_number (Value.vstr "3.5") = (Num.f ((parseFloatStr "3.5").getD 0), []) ∧
    to_number (Value.vstr "42") = (Num.i 42, []) ∧
    to_number (Value.vstr "abc") =
      (Num.i 0, ["[ERROR] Cannot convert " ++ squoteS ++ "abc" ++ squoteS ++ " to number"]) :=
  ⟨C6_to_number.2.1 "3.5" ((parseFloatStr "3.5").getD 0) (by decide) rfl,
   C6_to_number.2.2.1 "42" 42 (by decide) (by decide),
   C6_to_number.2.2.2.2 "abc" (by decide) (by decide)⟩

/-- C3 counterexample: the source decides comparisons numerically even
when coercion fails, because to_number substitutes zero instead of
raising, so the string-equality fallback never runs.  Concretely, abc
equals abd evaluates to true (0 = 0) although the two operand strings
differ, and abc greater than (0 - 1) evaluates to true (0 > -1) although
the claim says ordering on a failed coercion always yields false. -/
theorem C3_comparison_counterexample :
    (evaluate_condition emptyEnv emptyState
        (Cond.comparison (Expr.leaf (sq "abc")) "equals" (Expr.leaf (sq "abd")))).1 =
      Except.ok true ∧
    ("abc" : String) ≠ "abd" ∧
    (evaluate_condition emptyEnv emptyState
        (Cond.comparison (Expr.leaf (sq "abc")) "greater than"
          (Expr.subtract (Expr.leaf "0") (Expr.leaf "1")))).1 = Except.ok true :=
  ⟨rfl, by decide, rfl⟩

/-- C3 as amended: when coercion of the left operand fails, to_number
prints a conversion error and substitutes integer zero, and the
comparison is then decided numerically on the substituted values for
every operator, with at least one error line printed; the string
fallback branch of the source is unreachable. -/
theorem C3_comparison_zero_substitution
    (env : Env) (st : InterpState) (l r : Expr) (op : String)
    (lv rv : Value) (lg1 lg2 : List String)
    (hl : evaluate_expression st l = (Except.ok lv, lg1))
    (hr : evaluate_expression st r = (Except.ok rv, lg2))
    (hfail : (to_number lv).2 ≠ []) :
    (to_number lv).1 = Num.i 0 ∧
    evaluate_condition env st (Cond.comparison l op r) =
      (Except.ok (numCompare op 0 (to_number rv).1.toRat),
       lg1 ++ lg2 ++ (to_number lv).2 ++ (to_number rv).2) ∧
    (evaluate_condition env st (Cond.comparison l op r)).2 ≠ [] := by
  have h0 := to_number_fail_zero lv hfail
  have hEq : evaluate_condition env st (Cond.comparison l op r) =
      (Except.ok (numCompare op 0 (to_number rv).1.toRat),
       lg1 ++ lg2 ++ (to_number lv).2 ++ (to_number rv).2) := by
    rcases hLv : to_number lv with ⟨ln, lgl⟩
    rcases hRv : to_number rv with ⟨rn, lgr⟩
    replace h0 : ln = Num.i 0 := by rw [hLv] at h0; exact h0
    subst h0
    simp only [evaluate_condition, hl, hr, hLv, hRv]
    simp [Num.toRat]
  refine ⟨h0, hEq, ?_⟩
  intro habs
  rw [hEq] at habs
  simp only [List.append_eq_nil] at habs
  exact hfail (by tauto)

/-- Witness for the amended C3 at concrete inputs: abc fails coercion
with an error line, zero is substituted, and abc equals 5 is decided
numerically as 0 = 5, which is false (the outcome the specification
example expects, reached through substitution rather than string
comparison). -/
theorem C3_comparison_zero_substitution_witness :
    (to_number (Value.vstr "abc")).2 ≠ [] ∧
    (to_number (Value.vstr "abc")).1 = Num.i 0 ∧
    evaluate_condition emptyEnv emptyState
        (Cond.comparison (Expr.leaf (sq "abc")) "equals" (Expr.leaf "5")) =
      (Except.ok (numCompare "equals" 0 (to_number (Value.vstr "5")).1.toRat),
       [] ++ [] ++ (to_number (Value.vstr "abc")).2 ++ (to_number (Value.vstr "5")).2) ∧
    numCompare "equals" 0 (to_number (Value.vstr "5")).1.toRat = false := by
  have h := C3_comparison_zero_substitution emptyEnv emptyState (Expr.leaf (sq "abc"))
    (Expr.leaf "5") "equals" (Value.vstr "abc") (Value.vstr "5") [] [] rfl rfl (by decide)
  exact ⟨by decide, h.1, h.2.1, by decide⟩

/-- A Python % with a divisor of value zero raises ZeroDivisionError,
whatever the operand kinds. -/
theorem pymod_zero_divisor (a b : Num) (h : b.toRat = 0) :
    ∃ msg, Num.pymod a b = Except.error (Err.zeroDivisionError msg) := by
  cases a with
  | i x =>
    cases b with
    | i y =>
      refine ⟨"integer division or modulo by zero", ?_⟩
      have hy : y = 0 := by simpa [Num.toRat, Int.cast_eq_zero] using h
      have e : Num.pymod (Num.i x) (Num.i y) =
          if y = 0 then Except.error (Err.zeroDivisionError "integer division or modulo by zero")
          else Except.ok (Num.i (Int.fmod x y)) := rfl
      rw [e, if_pos hy]
    | f q =>
      refine ⟨"float modulo", ?_⟩
      have e : Num.pymod (Num.i x) (Num.f q) =
          if (Num.f q).toRat = 0 then Except.error (Err.zeroDivisionError "float modulo")
          else Except.ok (Num.f ((Num.i x).toRat - (Num.f q).toRat *
            (Rat.floor ((Num.i x).toRat / (Num.f q).toRat) : Rat))) := rfl
      rw [e, if_pos h]
  | f p =>
    cases b with
    | i y =>
      refine ⟨"float modulo", ?_⟩
      have e : Num.pymod (Num.f p) (Num.i y) =
          if (Num.i y).toRat = 0 then Except.error (Err.zeroDivisionError "float modulo")
          else Except.ok (Num.f ((Num.f p).toRat - (Num.i y).toRat *
            (Rat.floor ((Num.f p).toRat / (Num.i y).toRat) : Rat))) := rfl
      rw [e, if_pos h]
    | f q =>
      refine ⟨"float modulo", ?_⟩
      have e : Num.pymod (Num.f p) (Num.f q) =
          if (Num.f q).toRat = 0 then Except.error (Err.zeroDivisionError "float modulo")
          else Except.ok (Num.f ((Num.f p).toRat - (Num.f q).toRat *
            (Rat.floor ((Num.f p).toRat / (Num.f q).toRat) : Rat))) := rfl
      rw [e, if_pos h]

/-- C10: a modulo whose divisor coerces to zero raises ZeroDivisionError
from the unguarded Python %, and the error propagates out of the
expression evaluator as a hard error (concretely, a set statement whose
expression is 5 % 0 ends in a raised ZeroDivisionError), unlike
division, which on the same divisor returns zero. -/
theorem C10_modulo_by_zero_raises :
    (∀ st l r lv rv lg1 lg2,
       evaluate_expression st l = (Except.ok lv, lg1) →
       evaluate_expression st r = (Except.ok rv, lg2) →
       (to_number rv).1.toRat = 0 →
       ∃ msg, evaluate_expression st (Expr.modulo l r) =
         (Except.error (Err.zeroDivisionError msg),
          lg1 ++ lg2 ++ (to_number lv).2 ++ (to_number rv).2)) ∧
    (execStmt emptyEnv 5 emptyState
        (Stmt.set Scope.loc (vq "x") (Expr.modulo (Expr.leaf "5") (Expr.leaf "0"))) =
      (emptyState, RunRes.raised (Err.zeroDivisionError "integer division or modulo by zero"))) ∧
    ((evaluate_expression emptyState (Expr.divide (Expr.leaf "5") (Expr.leaf "0"))).1 =
      Except.ok (Value.vnum (Num.i 0))) := by
  refine ⟨?_, rfl, rfl⟩
  intro st l r lv rv lg1 lg2 hl hr hz
  rcases hRv : to_number rv with ⟨rn, lgr⟩
  replace hz : rn.toRat = 0 := by rw [hRv] at hz; exact hz
  rcases hLv : to_number lv with ⟨ln, lgl⟩
  obtain ⟨msg, hm⟩ := pymod_zero_divisor ln rn hz
  refine ⟨msg, ?_⟩
  simp only [evaluate_expression, hl, hr, hLv, hRv, hm]

/-- Witness for C10 at concrete inputs: 5 % 0 raises inside the
evaluator. -/
theorem C10_modulo_by_zero_raises_witness :
    (to_number (Value.vstr "0")).1.toRat = 0 ∧
    (∃ msg, evaluate_expression emptyState (Expr.modulo (Expr.leaf "5") (Expr.leaf "0")) =
      (Except.error (Err.zeroDivisionError msg),
       [] ++ [] ++ (to_number (Value.vstr "5")).2 ++ (to_number (Value.vstr "0")).2)) :=
  ⟨by decide, C10_modulo_by_zero_raises.1 emptyState (Expr.leaf "5") (Expr.leaf "0")
      (Value.vstr "5") (Value.vstr "0") [] [] rfl rfl (by decide)⟩

/-- C1 at program level (the code bug): CrystalInterpreter is a lark
Transformer, so the error_stmt callback runs bottom-up, while the try
children are being transformed and before the try_stmt method is ever
invoked; the exception aborts the whole transform (main reports it and
exits) with nothing printed, so caught is never printed and the catch
block never runs, against the claim, which matches the method-level
intent of try_stmt.  The filtered catch keyword also leaves the catch
split of try_stmt without its marker. -/
theorem C1_transform_behavior :
    transformTree emptyEnv 20 emptyTState tryScriptP =
      (emptyTState, TRes.raised (Err.exc "x")) ∧
    (transformTree emptyEnv 20 emptyTState tryScriptP).1.output = [] ∧
    "caught" ∉ (transformTree emptyEnv 20 emptyTState tryScriptP).1.output ∧
    "unreachable" ∉ (transformTree emptyEnv 20 emptyTState tryScriptP).1.output :=
  ⟨rfl, rfl, by decide, by decide⟩

/-- C2 at program level (the code bug): the say_stmt callback runs
unconditionally while the if children are transformed, printing skipped
although the condition 1 equals 2 is false and the statement has no
otherwise branch; the if_stmt method then receives a statement wrapper
holding None, which execute_statement cannot dispatch (last conjunct),
and the un-inlined condition wrapper, which evaluate_condition maps to
false whatever it wraps (third conjunct).  The claim that exactly one
branch runs, and that a false condition with no otherwise branch
executes zero statements, is false of the program. -/
theorem C2_transform_behavior :
    (transformTree emptyEnv 50 emptyTState ifScriptP).1.output = ["skipped"] ∧
    (transformTree emptyEnv 50 emptyTState ifScriptP).2 = TRes.ok TNode.pynone ∧
    (∀ env st cs, evalCondT env st (TNode.tree "condition" cs) = (Except.ok false, [])) ∧
    (∀ env fuel st,
       (transAt env (fuel + 1)).exec1 st (TNode.tree "statement" [TNode.pynone]) =
         (st, TRes.ok ())) :=
  ⟨by decide, rfl, fun env st cs => rfl, fun env fuel st => rfl⟩

/-- C4 at program level (the code bug): the unit argument of wait_stmt
is the kept time_unit rule node, its anonymous unit keyword having been
filtered, so str(args[1]).lower() is the lowered tree repr (second
conjunct), which matches no unit word and falls to the default branch:
every wait sleeps amount times 1 second whatever unit was written
(first conjunct), and transforming wait 1 minutes records a sleep of 1
second (third conjunct) where the claim, and the unreachable table in
the method itself (last conjunct), say 60. -/
theorem C4_wait_program_behavior :
    (∀ n : Int, wait_sleep_time n (some (TNode.pyStr (TNode.tree "time_unit" []))) = n) ∧
    TNode.pyStr (TNode.tree "time_unit" []) =
      "Tree(" ++ squoteS ++ "time_unit" ++ squoteS ++ ", [])" ∧
    (transformTree emptyEnv 20 emptyTState waitScriptP).1.sleeps = [1] ∧
    wait_sleep_time 1 (some "minutes") = 60 :=
  ⟨fun n => rfl, by decide, by decide, rfl⟩

/-- C7 at program level (the code bug): lark filters the anonymous
local and global keywords, so set_stmt receives two children and its
args[0], args[1], args[2] unpacking raises IndexError at transform
time; set local x = 1 aborts the script with x never bound, so the
claimed shadowing scenario cannot be produced by set statements.  The
local-before-global order of resolve_value itself is real (and
reachable through bindings the program can still create, such as
foreach loop variables): with x bound to 1 locally and 2 globally the
local value wins (last conjunct). -/
theorem C7_transform_behavior :
    transformTree emptyEnv 20 emptyTState setScriptP =
      (emptyTState, TRes.raised (Err.indexError "list index out of range")) ∧
    (transformTree emptyEnv 20 emptyTState setScriptP).1.local_vars = [] ∧
    resolve_value
        { local_vars := [("x", Value.vstr "1")], global_vars := [("x", Value.vstr "2")],
          functions := [], output := [] } (vq "x") = Value.vstr "1" :=
  ⟨rfl, by decide, by decide⟩

/-- C8 at program level (the code bug): the loop body executes exactly
once, unconditionally, while the repeat children are being transformed,
so repeat 0 prints its body once although the claim says zero times;
the repeat_stmt method then loops the requested count over statement
wrappers holding None, which execute nothing, so no count or condition
changes how often the body runs. -/
theorem C8_transform_behavior :
    (transformTree emptyEnv 20 emptyTState repeatScriptP).1.output = ["body"] ∧
    (transformTree emptyEnv 20 emptyTState repeatScriptP).2 = TRes.ok TNode.pynone :=
  ⟨by decide, rfl⟩

/-- C9 at program level (the code bug): the function body runs exactly
once, while the function_def children are being transformed and before
the body is stored; the stored body is a NEWLINE token and a statement
wrapper holding None (last conjunct), so each of the two calls executes
nothing: hi is printed once, not twice, and no call-time mutation
exists to be shared between calls. -/
theorem C9_transform_behavior :
    (transformTree emptyEnv 30 emptyTState funScriptP).1.output =
      ["hi", "[FUNCTION] Defined: f"] ∧
    (transformTree emptyEnv 30 emptyTState funScriptP).2 = TRes.ok TNode.pynone ∧
    (transformTree emptyEnv 30 emptyTState funScriptP).1.tfunctions =
      [("f", [TNode.token "NEWLINE" "\n", TNode.tree "statement" [TNode.pynone]])] :=
  ⟨by decide, rfl, rfl⟩

end Crystal
